import Mathlib

/-!
Verification development for the Audionize sync server (`src/server.js`).

The session-coordination core of the server is shallowly embedded below:
the global mutable maps (`sessions`, `clientReadiness`, `playCommandDebounce`)
become function-typed fields of an explicit server state, each Socket.IO
event handler becomes a pure function from state and event arguments to a
new state plus a list of emitted transport effects, and timers become
explicit `armTimer` effects together with a separate timer-fire event
(the real `setTimeout` callback body is embedded as `graceTimerFire`).
Events are processed atomically in sequence, matching Node's single-threaded
event loop.  Wall-clock times are naturals (milliseconds); note that for the
two timestamp comparisons in the source (`now - last < 100` and
`now - last > 1000`), truncated natural subtraction agrees with JavaScript
arithmetic even when `now < last`.  The HTTP endpoints, CORS glue, heartbeat
sweep, rate limiter and the 24-hour age sweep are outside the scope of the
claims and are not modelled.
-/

namespace Audionize

/-- `HOST_GRACE_PERIOD` from server.js: 5 minutes in milliseconds. -/
def HOST_GRACE_PERIOD : Nat := 5 * 60 * 1000

/-- `MAX_CLIENTS_PER_SESSION` from server.js. -/
def MAX_CLIENTS_PER_SESSION : Nat := 50

/-- A `{id, name}` membership record as stored in `session.host` / `session.clients`. -/
structure Member where
  id : String
  name : String
deriving DecidableEq, Repr

/-- The audio payload object relayed by `audio_upload` (opaque blob plus the
two fields the server validates). -/
structure Audio where
  fileSize : Nat
  fileType : String
  blob : String
deriving DecidableEq, Repr

/-- One entry of the `sessions` map in server.js. -/
structure Session where
  host : Option Member
  clients : List Member
  audio : Option Audio
  createdAt : Nat
  lastActivity : Nat
  hostDisconnectedAt : Option Nat
deriving DecidableEq, Repr

/-- The domain fields server.js stamps onto each socket
(`socket.session`, `socket.role`, `socket.name`). -/
structure SockMeta where
  sessionCode : Option String
  role : Option String
  userName : Option String
deriving DecidableEq, Repr

def SockMeta.empty : SockMeta := ⟨none, none, none⟩

/-- Transport effects produced by the handlers (sends, closes, timer arming).
`hostDisconnect` carries the `gracePeriod` field of the payload, which is
`HOST_GRACE_PERIOD` for the waiting notice and `0` for the ended notice,
exactly as in the source. -/
inductive Eff
  | emit (target : String) (ev : String)
  | emitRoom (code : String) (ev : String)
  | relay (code : String) (sender : String) (ev : String)
  | presence (code : String) (hostName : Option String) (clients : List Member)
  | allReady (target : String) (code : String) (ready : List String)
  | hostDisconnect (code : String) (gracePeriod : Nat)
  | close (cid : String)
  | armTimer (code : String) (deadline : Nat)
deriving DecidableEq, Repr

/-- The in-memory server state: the three global maps of server.js, the
per-socket domain fields, and the transport's connected flag (read by the
`session.host.socket.connected` check in the client-ready handler). -/
structure SrvState where
  sessions : String → Option Session
  readiness : String → Option (List String)
  debounce : String → Option Nat
  socks : String → SockMeta
  connected : String → Bool

/-- Pointwise update of a string-keyed map. -/
def upd {α : Type} (m : String → Option α) (k : String) (v : Option α) :
    String → Option α :=
  fun k' => if k' = k then v else m k'

/-- JavaScript `String.prototype.trim`: drop leading and trailing
whitespace (expressed on the character list so it computes by reduction). -/
def jsTrim (s : String) : String :=
  ⟨((s.data.dropWhile Char.isWhitespace).reverse.dropWhile
      Char.isWhitespace).reverse⟩

/-- JavaScript `String.prototype.startsWith`, on character lists. -/
def startsWithChars : List Char → List Char → Bool
  | [], _ => true
  | _ :: _, [] => false
  | p :: ps, c :: cs => p == c && startsWithChars ps cs

/-- Does `s` start with the literal `p`? -/
def strStartsWith (s p : String) : Bool := startsWithChars p.data s.data

/-- `validateSessionCode` from server.js: 4-20 alphanumeric characters. -/
def validateSessionCode (code : String) : Bool :=
  decide (4 ≤ code.length) && decide (code.length ≤ 20) &&
    code.data.all Char.isAlphanum

/-- `validateUserName` from server.js: trimmed length between 1 and 50. -/
def validateUserName (name : String) : Bool :=
  decide (1 ≤ (jsTrim name).length) && decide ((jsTrim name).length ≤ 50)

/-- `validateRole` from server.js. -/
def validateRole (role : String) : Bool :=
  role == "host" || role == "client"

/-- The session object literal created on first join to an unknown code. -/
def freshSession (now : Nat) : Session :=
  { host := none, clients := [], audio := none,
    createdAt := now, lastActivity := now, hostDisconnectedAt := none }

/-- The primitive operations of the host branch of the join handler, in
source order: first the forced close of a different existing host, then the
installation of the new host record. -/
inductive HostOp
  | closeOld (cid : String)
  | installHost (m : Member)
deriving DecidableEq, Repr

/-- Source order of the host branch: if a different connection currently
holds host, close it first; then always install the new host. -/
def hostBranchOps (cur : Option Member) (sid nm : String) : List HostOp :=
  (match cur with
   | some h => if h.id ≠ sid then [HostOp.closeOld h.id] else []
   | none => []) ++ [HostOp.installHost ⟨sid, nm⟩]

/-- Interpreter for one host-branch operation. -/
def applyHostOp (acc : Session × List Eff) (op : HostOp) : Session × List Eff :=
  match op with
  | .closeOld cid => (acc.1, acc.2 ++ [Eff.close cid])
  | .installHost m => ({ acc.1 with host := some m }, acc.2)

/-- Run the host-branch operations from a session. -/
def runHostOps (s : Session) (ops : List HostOp) : Session × List Eff :=
  ops.foldl applyHostOp (s, [])

/-- The `join` event handler of server.js (lines 246-396): validation,
client-side session checks, socket stamping, lazy session creation, host
replacement or client insertion, late-join audio sync, and the presence
broadcast. -/
def joinHandler (st : SrvState) (sid sessionArg roleArg nameArg : String)
    (now : Nat) : SrvState × List Eff :=
  if !validateSessionCode sessionArg then
    (st, [Eff.emit sid "join-error"])
  else if !validateRole roleArg then
    (st, [Eff.emit sid "join-error"])
  else if !validateUserName nameArg then
    (st, [Eff.emit sid "join-error"])
  else if roleArg == "client" &&
      !(match st.sessions sessionArg with
        | some s => s.host.isSome
        | none => false) then
    (st, [Eff.emit sid "session-not-found"])
  else if roleArg == "client" &&
      (match st.sessions sessionArg with
       | some s => decide (MAX_CLIENTS_PER_SESSION ≤ s.clients.length)
       | none => false) then
    (st, [Eff.emit sid "session-full"])
  else
    let nm := jsTrim nameArg
    let newSocks : String → SockMeta := fun i =>
      if i = sid then ⟨some sessionArg, some roleArg, some nm⟩ else st.socks i
    let st1 : SrvState := { st with socks := newSocks }
    let s0 := (st1.sessions sessionArg).getD (freshSession now)
    let s0 := { s0 with lastActivity := now }
    if roleArg == "host" then
      let hostRes := runHostOps s0 (hostBranchOps s0.host sid nm)
      let s1 := hostRes.1
      let audioEffs := match s1.audio with
        | some _ => [Eff.emit sid "audio-uploaded", Eff.emit sid "audio_sync"]
        | none => []
      let st2 : SrvState :=
        { st1 with sessions := upd st1.sessions sessionArg (some s1) }
      (st2, hostRes.2 ++ audioEffs ++
        [Eff.presence sessionArg (s1.host.map Member.name) s1.clients])
    else
      let kept := s0.clients.filter (fun c => c.id != sid && c.name != nm)
      let s1 := { s0 with clients := kept ++ [⟨sid, nm⟩] }
      let audioEffs := match s1.audio with
        | some _ => [Eff.emit sid "audio-uploaded", Eff.emit sid "audio_sync"]
        | none => []
      let hostEffs := match s1.host with
        | some h => [Eff.emit h.id "user-joined"]
        | none => []
      let st2 : SrvState :=
        { st1 with sessions := upd st1.sessions sessionArg (some s1) }
      (st2, audioEffs ++ hostEffs ++
        [Eff.presence sessionArg (s1.host.map Member.name) s1.clients])

/-- First block of the disconnect handler (lines 735-749): prune the
departing socket from its session's ready set (removing the set if it became
empty) and delete both of the session's debounce keys.  Runs whenever the
socket had a session binding, even if the session no longer exists. -/
def disconnectCleanup (st : SrvState) (sm : SockMeta) (sid : String) :
    SrvState :=
  match sm.sessionCode with
  | none => st
  | some code =>
    let stR :=
      match st.readiness code with
      | none => st
      | some l =>
        let l' := l.erase sid
        let newReady := upd st.readiness code (if l' = [] then none else some l')
        { st with readiness := newReady }
    let newDeb : String → Option Nat := fun k =>
      if k = code || k = code ++ "_all_ready" then none else stR.debounce k
    { stR with debounce := newDeb }

/-- Second block of the disconnect handler (lines 751-853), acting on the
sessions map (the only state this block mutates): client removal, the host
grace-period branch with its early return, and otherwise the presence
broadcast and empty-session cleanup. -/
def disconnectSessionsCore (sessions : String → Option Session)
    (sm : SockMeta) (sid : String) (now : Nat) :
    (String → Option Session) × List Eff :=
  match sm.sessionCode with
  | none => (sessions, [])
  | some code =>
    match sessions code with
    | none => (sessions, [])
    | some s =>
      let clientRes : Session × List Eff :=
        if sm.role = some "client" then
          let kept := s.clients.filter (fun c => c.id != sid)
          let effs :=
            if kept.length ≠ s.clients.length then
              match s.host with
              | some h => [Eff.emit h.id "user-left"]
              | none => []
            else []
          ({ s with clients := kept }, effs)
        else (s, [])
      let s1 := clientRes.1
      let leftEffs := clientRes.2
      if sm.role = some "host" &&
          (match s1.host with | some h => h.id == sid | none => false) then
        let s2 := { s1 with hostDisconnectedAt := some now, host := none }
        (upd sessions code (some s2),
         leftEffs ++ [Eff.hostDisconnect code HOST_GRACE_PERIOD,
                      Eff.armTimer code (now + HOST_GRACE_PERIOD)])
      else
        let written := upd sessions code (some s1)
        let pres := [Eff.presence code (s1.host.map Member.name) s1.clients]
        if s1.host = none && s1.clients = [] then
          (upd written code none, leftEffs ++ pres)
        else
          (written, leftEffs ++ pres)

/-- The `disconnect` event handler of server.js (lines 730-857): the
cleanup block followed by the session block. -/
def disconnectHandler (st : SrvState) (sid : String) (now : Nat) :
    SrvState × List Eff :=
  let sm := st.socks sid
  let stA := disconnectCleanup st sm sid
  let r := disconnectSessionsCore stA.sessions sm sid now
  ({ stA with sessions := r.1 }, r.2)

/-- The body of the grace-period `setTimeout` callback (lines 801-821):
re-validate that the session still exists and the host is still absent; if
so, send the ended notice, force-close every client, and delete the session. -/
def graceTimerFire (st : SrvState) (code : String) : SrvState × List Eff :=
  match st.sessions code with
  | none => (st, [])
  | some s =>
    if s.host = none then
      ({ st with sessions := upd st.sessions code none },
       Eff.hostDisconnect code 0 :: s.clients.map (fun c => Eff.close c.id))
    else (st, [])

/-- JavaScript `Set.add`: append the id if it is not already present
(insertion order is preserved, matching `Array.from` on a JS Set). -/
def addReady (l : List String) (sid : String) : List String :=
  if sid ∈ l then l else l ++ [sid]

/-- The `client-ready` event handler of server.js (lines 630-709): add the
sender to the session's ready set, then if every current client is ready,
the host is attached and its socket connected, notify the host unless a
notification was already sent less than 1000 ms ago. -/
def clientReadyHandler (st : SrvState) (sid : String) (now : Nat) :
    SrvState × List Eff :=
  match (st.socks sid).sessionCode with
  | none => (st, [])
  | some code =>
    let l := (st.readiness code).getD []
    let l' := addReady l sid
    let st1 : SrvState := { st with readiness := upd st.readiness code (some l') }
    match st1.sessions code with
    | none => (st1, [])
    | some s =>
      if decide (0 < s.clients.length) then
        let allClientsReady := s.clients.all (fun c => l'.contains c.id)
        match s.host with
        | some h =>
          if allClientsReady && st1.connected h.id then
            let key := code ++ "_all_ready"
            let ok := match st1.debounce key with
              | none => true
              | some last => decide (1000 < now - last)
            if ok then
              ({ st1 with debounce := upd st1.debounce key (some now) },
               [Eff.allReady h.id code l'])
            else (st1, [])
          else (st1, [])
        | none => (st1, [])
      else (st1, [])

/-- The `client-not-ready` event handler (lines 711-728). -/
def clientNotReadyHandler (st : SrvState) (sid : String) :
    SrvState × List Eff :=
  match (st.socks sid).sessionCode with
  | none => (st, [])
  | some code =>
    match st.readiness code with
    | none => (st, [])
    | some l =>
      ({ st with readiness := upd st.readiness code (some (l.erase sid)) }, [])

/-- The `play_command` handler with its 100 ms debounce gate (lines 504-561).
`validData` models the `!data || typeof data !== "object"` check, which in
the source happens after the debounce timestamp is already updated. -/
def playHandler (st : SrvState) (sid : String) (validData : Bool) (now : Nat) :
    SrvState × List Eff :=
  match (st.socks sid).sessionCode with
  | none => (st, [])
  | some code =>
    match st.sessions code with
    | none => (st, [])
    | some s =>
      let last := (st.debounce code).getD 0
      if decide (now - last < 100) then (st, [])
      else
        let st1 : SrvState := { st with debounce := upd st.debounce code (some now) }
        if !validData then (st1, [])
        else
          let newSess := upd st1.sessions code (some { s with lastActivity := now })
          let st2 : SrvState := { st1 with sessions := newSess }
          (st2, [Eff.relay code sid "play_command"])

/-- The `audio_upload` handler (lines 398-452), with the size and
media-type validation. -/
def audioUploadHandler (st : SrvState) (sid : String) (a : Audio) (now : Nat) :
    SrvState × List Eff :=
  match (st.socks sid).sessionCode with
  | none => (st, [])
  | some code =>
    match st.sessions code with
    | none => (st, [])
    | some s =>
      if decide (100 * 1024 * 1024 < a.fileSize) then
        (st, [Eff.emit sid "audio-upload-error"])
      else if a.fileType != "" && !(strStartsWith a.fileType "audio/") then
        (st, [Eff.emit sid "audio-upload-error"])
      else
        let newSess := upd st.sessions code (some { s with audio := some a, lastActivity := now })
        let st1 : SrvState := { st with sessions := newSess }
        let hostEffs := match s.host with
          | some h =>
            if h.id ≠ sid then
              [Eff.emit h.id "audio-uploaded", Eff.emit h.id "audio_sync"]
            else []
          | none => []
        (st1, [Eff.relay code sid "audio-uploaded",
               Eff.relay code sid "audio_sync"] ++ hostEffs)

/-- The `disconnect-client` handler (lines 590-627): unicast `disconnected`,
then if the target is a current client of the sender's session, force-close
it, splice it out, and broadcast the recomputed presence. -/
def disconnectClientHandler (st : SrvState) (sid clientId : String) :
    SrvState × List Eff :=
  let e0 := [Eff.emit clientId "disconnected"]
  match (st.socks sid).sessionCode with
  | none => (st, e0)
  | some code =>
    match st.sessions code with
    | none => (st, e0)
    | some s =>
      match s.clients.findIdx? (fun c => c.id == clientId) with
      | none => (st, e0)
      | some i =>
        let kept := s.clients.eraseIdx i
        ({ st with sessions := upd st.sessions code (some { s with clients := kept }) },
         e0 ++ [Eff.close clientId,
                Eff.presence code (s.host.map Member.name) kept])

/-- The inbound events the embedding covers, each carrying the wall-clock
time at which it is processed. -/
inductive Ev
  | join (sid sessionArg roleArg nameArg : String) (t : Nat)
  | disconnect (sid : String) (t : Nat)
  | graceFire (code : String) (t : Nat)
  | clientReady (sid : String) (t : Nat)
  | clientNotReady (sid : String) (t : Nat)
  | play (sid : String) (validData : Bool) (t : Nat)
  | audioUpload (sid : String) (a : Audio) (t : Nat)
  | disconnectClient (sid clientId : String) (t : Nat)
deriving DecidableEq, Repr

/-- One atomic event-loop step.  A delivered disconnect notification also
flips the transport's connected flag for the socket. -/
def step (st : SrvState) : Ev → SrvState × List Eff
  | .join sid sessionArg roleArg nameArg t =>
      joinHandler st sid sessionArg roleArg nameArg t
  | .disconnect sid t =>
      let st0 : SrvState :=
        { st with connected := fun i => if i = sid then false else st.connected i }
      disconnectHandler st0 sid t
  | .graceFire code _ => graceTimerFire st code
  | .clientReady sid t => clientReadyHandler st sid t
  | .clientNotReady sid _ => clientNotReadyHandler st sid
  | .play sid validData t => playHandler st sid validData t
  | .audioUpload sid a t => audioUploadHandler st sid a t
  | .disconnectClient sid clientId _ => disconnectClientHandler st sid clientId

/-- Process a sequence of events, accumulating all emitted effects. -/
def run (st : SrvState) : List Ev → SrvState × List Eff
  | [] => (st, [])
  | e :: es =>
    let r1 := step st e
    let r2 := run r1.1 es
    (r2.1, r1.2 ++ r2.2)

/-- The server state at process start: all maps empty, every socket
connected and unstamped. -/
def initState : SrvState :=
  { sessions := fun _ => none, readiness := fun _ => none,
    debounce := fun _ => none, socks := fun _ => SockMeta.empty,
    connected := fun _ => true }

/-- Number of hosts a session records (the `host` slot holds at most one). -/
def hostCount (s : Session) : Nat := s.host.toList.length

/-- Is an effect a presence-update broadcast? -/
def Eff.isPresence : Eff → Bool
  | .presence _ _ _ => true
  | _ => false

/-- Is an effect a forced transport close? -/
def Eff.isClose : Eff → Bool
  | .close _ => true
  | _ => false

/-- Count the presence-update broadcasts in an effect list. -/
def countPresence (effs : List Eff) : Nat :=
  (effs.filter Eff.isPresence).length

/-- Count the forwarded play commands in an effect list. -/
def countPlayRelays (effs : List Eff) : Nat :=
  (effs.filter (fun e => match e with
    | .relay _ _ ev => ev == "play_command"
    | _ => false)).length

/-- Count the all-clients-ready notifications in an effect list. -/
def countAllReady (effs : List Eff) : Nat :=
  (effs.filter (fun e => match e with
    | .allReady _ _ _ => true
    | _ => false)).length

/-- A sequence of play events from one socket at the given times. -/
def playEvents (sid : String) (ts : List Nat) : List Ev :=
  ts.map (fun t => Ev.play sid true t)

/-- Every present session is marked: a hostless session always carries its
hostDisconnectedAt grace marker (the key inductive invariant behind the
registry-presence property). -/
def HostlessMarked (st : SrvState) : Prop :=
  ∀ code s, st.sessions code = some s → s.host = none →
    s.hostDisconnectedAt ≠ none

/-- Session contents used by the C1 witness. -/
def sessC1 : Session := ⟨some ⟨"h1", "Ann"⟩, [], none, 0, 0, none⟩

/-- State for the C1 witness: session ABCD with host h1. -/
def stC1 : SrvState := (run initState [Ev.join "h1" "ABCD" "host" "Ann" 0]).1

/-- Event trace for the C2 counterexample: host joins, a client joins, the
host disconnects (grace period starts at time 2), and the last client
disconnects at time 10, well inside the 5-minute grace period. -/
def evsC2 : List Ev :=
  [Ev.join "h1" "ABCD" "host" "Ann" 0,
   Ev.join "c1" "ABCD" "client" "Bob" 1,
   Ev.disconnect "h1" 2,
   Ev.disconnect "c1" 10]

/-- Event trace for the C3 counterexample: host h1 joins, uploads audio,
client c1 joins; h1 disconnects at 3 (timer A armed for 300003) and h2
rejoins at 4, before that deadline; h2 disconnects at 299000 (timer B armed
for 599000); the stale timer A fires at its deadline 300003 while the host
is absent; h3 rejoins at 300010, before timer B's deadline. -/
def evsC3 : List Ev :=
  [Ev.join "h1" "ABCD" "host" "Ann" 0,
   Ev.audioUpload "h1" ⟨1000, "audio/mp3", "song"⟩ 1,
   Ev.join "c1" "ABCD" "client" "Bob" 2,
   Ev.disconnect "h1" 3,
   Ev.join "h2" "ABCD" "host" "Cal" 4,
   Ev.disconnect "h2" 299000,
   Ev.graceFire "ABCD" 300003,
   Ev.join "h3" "ABCD" "host" "Dee" 300010]

/-- Event trace for the C4 counterexample: host joins, disconnects at time
5, and a new host joins at time 10, before the grace deadline. -/
def evsC4 : List Ev :=
  [Ev.join "h1" "ABCD" "host" "Ann" 0,
   Ev.disconnect "h1" 5,
   Ev.join "h2" "ABCD" "host" "Bea" 10]

/-- Event trace for the C5 counterexample: a host and two clients; both
clients signal ready (one all-clients-ready fires at time 20), then client
a re-sends client-ready at time 2000 without the ready set changing. -/
def evsC5 : List Ev :=
  [Ev.join "h" "ABCD" "host" "Ann" 0,
   Ev.join "a" "ABCD" "client" "Al" 1,
   Ev.join "b" "ABCD" "client" "Bo" 2,
   Ev.clientReady "a" 10,
   Ev.clientReady "b" 20,
   Ev.clientReady "a" 2000]

/-- State for the C5 witness: the counterexample trace right after the
first all-clients-ready notification (sent at time 20). -/
def stC5w : SrvState := (run initState (evsC5.take 5)).1

/-- Event trace for the C6 counterexample: a host joins its session and then
sends client-ready. -/
def evsC6 : List Ev :=
  [Ev.join "h" "ABCD" "host" "Ann" 0,
   Ev.clientReady "h" 5]

/-- State for the C7 counterexample: a session with host h1 and client c1. -/
def stC7 : SrvState :=
  (run initState [Ev.join "h1" "ABCD" "host" "Ann" 0,
                  Ev.join "c1" "ABCD" "client" "Bob" 1]).1

/-- State for the C10 witness: host h and client c in session ABCD, with a
play command accepted at time 1000 (so the debounce entry is populated). -/
def stC10 : SrvState :=
  (run initState [Ev.join "h" "ABCD" "host" "Ann" 0,
                  Ev.join "c" "ABCD" "client" "Bob" 1,
                  Ev.play "h" true 1000]).1

/-- The session contents after the C10 witness disconnect. -/
def sessC10 : Session := ⟨some ⟨"h", "Ann"⟩, [], none, 0, 1000, none⟩

/-- State for the readiness part of the C10 witness. -/
def stC10r : SrvState :=
  (run initState [Ev.join "h" "ABCD" "host" "Ann" 0,
                  Ev.join "a" "ABCD" "client" "Al" 1]).1

/-- State for the C3 witness: host h1 of ABCD with uploaded audio and one
client c1. -/
def stC3w : SrvState :=
  (run initState [Ev.join "h1" "ABCD" "host" "Ann" 0,
                  Ev.audioUpload "h1" ⟨1000, "audio/mp3", "song"⟩ 1,
                  Ev.join "c1" "ABCD" "client" "Bob" 2]).1

/-- The session contents of ABCD in `stC3w`. -/
def sessC3w : Session :=
  ⟨some ⟨"h1", "Ann"⟩, [⟨"c1", "Bob"⟩], some ⟨1000, "audio/mp3", "song"⟩,
   0, 2, none⟩

/-- State for the C4 witness before the rejoin: host h1 of ABCD
disconnected at time 5, grace marker set. -/
def stC4a : SrvState :=
  (run initState [Ev.join "h1" "ABCD" "host" "Ann" 0,
                  Ev.disconnect "h1" 5]).1

/-- Final state of the C4 counterexample trace (host h2 attached, stale
grace marker still present). -/
def stC4b : SrvState := (run initState evsC4).1

/-- State for the C9 witness: host h and one client in session ABCD, no
play command accepted yet. -/
def stC9 : SrvState :=
  (run initState [Ev.join "h" "ABCD" "host" "Ann" 0,
                  Ev.join "a" "ABCD" "client" "Al" 1]).1

@[simp] theorem upd_same {α : Type} (m : String → Option α) (k : String)
    (v : Option α) : upd m k v k = v := by
  simp [upd]

theorem upd_other {α : Type} (m : String → Option α) (k k' : String)
    (v : Option α) (h : k' ≠ k) : upd m k v k' = m k' := by
  simp [upd, h]

/-- Folding the host-branch operations installs the new host and, when a
different connection held host, emits exactly its forced close. -/
theorem runHostOps_hostBranch (s : Session) (cur : Option Member)
    (sid nm : String) :
    runHostOps s (hostBranchOps cur sid nm) =
      ({ s with host := some ⟨sid, nm⟩ },
       match cur with
       | some h => if h.id ≠ sid then [Eff.close h.id] else []
       | none => []) := by
  cases cur with
  | none => rfl
  | some h =>
    by_cases hc : h.id = sid
    · simp [hostBranchOps, runHostOps, applyHostOp, hc]
    · simp [hostBranchOps, runHostOps, applyHostOp, hc]

/-! ### Claim C1 -/

/-- Claim C1: in every reachable state a session records at most one host
(the host slot holds at most one member); and whenever a connection joins
with role host while a different connection currently holds host, the host
branch executes the forced close of the previous holder's connection
strictly before installing the new host (in the operation list the close
precedes the install), the close effect is emitted, and the new host ends
up installed. -/
theorem claim1_single_host_evict_before_install :
    (∀ evs code s, (run initState evs).1.sessions code = some s →
      hostCount s ≤ 1) ∧
    (∀ (cur : Option Member) (sid nm : String) (h : Member),
      cur = some h → h.id ≠ sid →
      hostBranchOps cur sid nm =
        [HostOp.closeOld h.id, HostOp.installHost ⟨sid, nm⟩]) ∧
    (∀ (st : SrvState) (sid sess nm : String) (now : Nat) (s : Session)
      (h : Member),
      validateSessionCode sess = true → validateUserName nm = true →
      st.sessions sess = some s → s.host = some h → h.id ≠ sid →
      Eff.close h.id ∈ (joinHandler st sid sess "host" nm now).2 ∧
      ∃ s', (joinHandler st sid sess "host" nm now).1.sessions sess = some s' ∧
        s'.host = some ⟨sid, jsTrim nm⟩) := by
  refine ⟨?_, ?_, ?_⟩
  · intro evs code s _
    cases hs : s.host <;> simp [hostCount, hs]
  · intro cur sid nm h hcur hne
    subst hcur
    simp [hostBranchOps, hne]
  · intro st sid sess nm now s h hcode hname hs hhost hne
    simp [joinHandler, validateRole, hcode, hname, hs, runHostOps_hostBranch,
      hhost, hne]

/-- Witness for C1 at a concrete state: a different connection h2 joins as
host while h1 holds host; h1's close is emitted and h2 is installed. -/
theorem claim1_witness :
    (run initState [Ev.join "h1" "ABCD" "host" "Ann" 0]).1.sessions "ABCD" =
      some sessC1 ∧
    hostCount sessC1 ≤ 1 ∧
    hostBranchOps (some ⟨"h1", "Ann"⟩) "h2" "Bea" =
      [HostOp.closeOld "h1", HostOp.installHost ⟨"h2", "Bea"⟩] ∧
    (Eff.close "h1" ∈ (joinHandler stC1 "h2" "ABCD" "host" "Bea" 9).2 ∧
     ∃ s', (joinHandler stC1 "h2" "ABCD" "host" "Bea" 9).1.sessions "ABCD" =
        some s' ∧ s'.host = some ⟨"h2", jsTrim "Bea"⟩) :=
  ⟨by decide,
   claim1_single_host_evict_before_install.1
     [Ev.join "h1" "ABCD" "host" "Ann" 0] "ABCD" sessC1 (by decide),
   claim1_single_host_evict_before_install.2.1
     (some ⟨"h1", "Ann"⟩) "h2" "Bea" ⟨"h1", "Ann"⟩ rfl (by decide),
   claim1_single_host_evict_before_install.2.2
     stC1 "h2" "ABCD" "Bea" 9 sessC1 ⟨"h1", "Ann"⟩
     (by decide) (by decide) (by decide) (by decide) (by decide)⟩

/-! ### Claim C8 -/

/-- Claim C8: a connection joining with role client for a code with no
session, or whose session has no attached host, is refused with a single
session-not-found event; the server state is completely unchanged (no
session is created or mutated, the socket is not stamped), and no transport
close is issued, so the connection stays open and may retry. -/
theorem claim8_client_join_refused_safely
    (st : SrvState) (sid sess nm : String) (now : Nat)
    (hcode : validateSessionCode sess = true)
    (hname : validateUserName nm = true)
    (hnohost : st.sessions sess = none ∨
      ∃ s, st.sessions sess = some s ∧ s.host = none) :
    joinHandler st sid sess "client" nm now =
      (st, [Eff.emit sid "session-not-found"]) := by
  have hguard : (match st.sessions sess with
      | some s => s.host.isSome
      | none => false) = false := by
    rcases hnohost with h | ⟨s, hs, hhost⟩
    · rw [h]
    · rw [hs]
      show s.host.isSome = false
      rw [hhost]
      rfl
  simp [joinHandler, validateRole, hcode, hname, hguard]

/-- Witness for C8 at a concrete state and input. -/
theorem claim8_witness :
    validateSessionCode "ZZZZ" = true ∧ validateUserName "Eve" = true ∧
    joinHandler initState "c9" "ZZZZ" "client" "Eve" 7 =
      (initState, [Eff.emit "c9" "session-not-found"]) :=
  ⟨by decide, by decide,
   claim8_client_join_refused_safely initState "c9" "ZZZZ" "Eve" 7
     (by decide) (by decide) (Or.inl rfl)⟩

/-! ### Claim C2 -/

/-- Counterexample to C2: after the trace, the session is gone from the
registry even though its host disconnected only 8 ms earlier (far less
than the grace period), so a session within its reconnection grace period
IS deleted when its last client disconnects.  The armed grace timer
(deadline 300002, witnessed by the armTimer effect) has not fired. -/
theorem claim2_grace_deletion_cex :
    (run initState evsC2).1.sessions "ABCD" = none ∧
    10 < 2 + HOST_GRACE_PERIOD ∧
    Eff.armTimer "ABCD" (2 + HOST_GRACE_PERIOD) ∈ (run initState evsC2).2 := by
  refine ⟨by decide, by decide, by decide⟩

/-! ### Claim C4 -/

/-- Counterexample to C4: after a host rejoins before the deadline, the
session has an attached host AND hostDisconnectedAt is still set to 5 —
the join handler never clears it, so it is not present only during the
grace period. -/
theorem claim4_stale_marker_cex :
    ((run initState evsC4).1.sessions "ABCD").map Session.hostDisconnectedAt =
      some (some 5) ∧
    ((run initState evsC4).1.sessions "ABCD").map (fun s => s.host.isSome) =
      some true := by
  refine ⟨by decide, by decide⟩

/-! ### Claim C6 -/

/-- Counterexample to C6: the client-ready handler adds any sender with a
session binding to the ready set, so after the host sends client-ready the
ready set contains the host id while the session's client list is empty —
the readySet is not a subset of the current client connection ids. -/
theorem claim6_host_in_readyset_cex :
    (run initState evsC6).1.readiness "ABCD" = some ["h"] ∧
    ((run initState evsC6).1.sessions "ABCD").map
      (fun s => s.clients.map Member.id) = some [] := by
  refine ⟨by decide, by decide⟩

/-! ### Claim C5 -/

/-- Counterexample to C5: the barrier transitions to satisfied exactly once
(the ready set is ["a","b"] both before and after the final resend), yet
the host receives two all-clients-ready notifications, because the
de-duplication gate is a 1000 ms time window, not a per-transition latch. -/
theorem claim5_renotify_cex :
    countAllReady (run initState evsC5).2 = 2 ∧
    (run initState (evsC5.take 5)).1.readiness "ABCD" = some ["a", "b"] ∧
    (run initState evsC5).1.readiness "ABCD" = some ["a", "b"] := by
  refine ⟨by decide, by decide, by decide⟩

/-! ### Claim C7 -/

/-- Counterexample to C7: when the host itself disconnects, the handler
returns early after the grace-period notice, broadcasting NO presence-update
at all, even though the session survives with one client. -/
theorem claim7_no_presence_on_host_disconnect_cex :
    countPresence (step stC7 (Ev.disconnect "h1" 2)).2 = 0 ∧
    ((step stC7 (Ev.disconnect "h1" 2)).1.sessions "ABCD").map
      (fun s => s.clients.map Member.id) = some ["c1"] ∧
    Eff.hostDisconnect "ABCD" HOST_GRACE_PERIOD ∈
      (step stC7 (Ev.disconnect "h1" 2)).2 := by
  refine ⟨by decide, by decide, by decide⟩

/-! ### Claim C3 -/

/-- Counterexample to C3: every host disconnect is followed by a host
rejoin before that disconnect's own grace deadline (4 < 300003 and
300010 < 599000; both armed deadlines appear as armTimer effects, and the
single fire event is at the first timer's exact deadline), yet client c1 is
forcibly closed and the cached audio payload is lost (the session ends up
recreated with no audio and no clients): a stale timer from the first
disconnect fires during the second absence. -/
theorem claim3_stale_timer_cex :
    Eff.armTimer "ABCD" 300003 ∈ (run initState evsC3).2 ∧
    Eff.armTimer "ABCD" 599000 ∈ (run initState evsC3).2 ∧
    Eff.close "c1" ∈ (run initState evsC3).2 ∧
    ((run initState evsC3).1.sessions "ABCD").map Session.audio = some none ∧
    ((run initState evsC3).1.sessions "ABCD").map Session.clients = some [] := by
  refine ⟨by decide, by decide, by decide, by decide, by decide⟩

/-! ### Claim C10 -/

/-- The cleanup block deletes both session-scoped debounce keys. -/
theorem disconnectCleanup_debounce (st : SrvState) (sm : SockMeta)
    (sid code : String) (hsm : sm.sessionCode = some code) (k : String)
    (hk : k = code ∨ k = code ++ "_all_ready") :
    (disconnectCleanup st sm sid).debounce k = none := by
  unfold disconnectCleanup
  simp only [hsm]
  rcases hk with rfl | rfl <;> simp

/-- The disconnect handler deletes both session-scoped debounce keys of the
departing socket's session, whatever else it does. -/
theorem disconnectHandler_debounce_cleared (st : SrvState) (sid code : String)
    (now : Nat) (hsm : (st.socks sid).sessionCode = some code) (k : String)
    (hk : k = code ∨ k = code ++ "_all_ready") :
    (disconnectHandler st sid now).1.debounce k = none := by
  show (disconnectCleanup st (st.socks sid) sid).debounce k = none
  exact disconnectCleanup_debounce st (st.socks sid) sid code hsm k hk

/-- Claim C10: whenever a connection bound to a session disconnects, the
server deletes that session's whole play-command debounce entry and its
all-ready de-duplication entry (not just per-connection state); as a
consequence, a play_command from a remaining member right after the
disconnect is forwarded (never suppressed by the 100 ms gate), and a
satisfied readiness barrier right after the disconnect notifies the host
(never suppressed by the 1 s gate). -/
theorem claim10_disconnect_clears_session_debounce :
    (∀ (st : SrvState) (sid code : String) (now : Nat),
      (st.socks sid).sessionCode = some code →
      (step st (Ev.disconnect sid now)).1.debounce code = none ∧
      (step st (Ev.disconnect sid now)).1.debounce (code ++ "_all_ready") = none) ∧
    (∀ (st : SrvState) (sid code : String) (s : Session) (t : Nat),
      (st.socks sid).sessionCode = some code →
      st.sessions code = some s →
      st.debounce code = none → 100 ≤ t →
      (playHandler st sid true t).2 = [Eff.relay code sid "play_command"]) ∧
    (∀ (st : SrvState) (sid code : String) (s : Session) (h : Member) (now : Nat),
      (st.socks sid).sessionCode = some code →
      st.sessions code = some s →
      0 < s.clients.length →
      s.clients.all
        (fun c => (addReady ((st.readiness code).getD []) sid).contains c.id) = true →
      s.host = some h →
      st.connected h.id = true →
      st.debounce (code ++ "_all_ready") = none →
      (clientReadyHandler st sid now).2 =
        [Eff.allReady h.id code (addReady ((st.readiness code).getD []) sid)]) := by
  refine ⟨?_, ?_, ?_⟩
  · intro st sid code now hsm
    constructor
    · simp only [step]
      exact disconnectHandler_debounce_cleared
        { st with connected := fun i => if i = sid then false else st.connected i }
        sid code now hsm code (Or.inl rfl)
    · simp only [step]
      exact disconnectHandler_debounce_cleared
        { st with connected := fun i => if i = sid then false else st.connected i }
        sid code now hsm _ (Or.inr rfl)
  · intro st sid code s t hsm hsess hdeb ht
    have hlt : ¬ t < 100 := by omega
    simp [playHandler, hsm, hsess, hdeb, hlt]
  · intro st sid code s h now hsm hsess hlen hall hhost hcon hdeb
    have hall' : ∀ x ∈ s.clients,
        x.id ∈ addReady ((st.readiness code).getD []) sid := by
      simpa using hall
    simp [clientReadyHandler, hsm, hsess, hlen, hhost, hcon, hdeb]
    rw [if_pos hall']

/-- Witness for C10: after client c disconnects at 1001, both debounce keys
are gone, and a play by the host at 1002 (only 2 ms after the last accepted
play) is forwarded; in the readiness state, client a's client-ready fires
the host notification with an empty de-dup entry. -/
theorem claim10_witness :
    ((stC10.socks "c").sessionCode = some "ABCD" ∧
     (step stC10 (Ev.disconnect "c" 1001)).1.debounce "ABCD" = none ∧
     (step stC10 (Ev.disconnect "c" 1001)).1.debounce "ABCD_all_ready" = none) ∧
    (playHandler (step stC10 (Ev.disconnect "c" 1001)).1 "h" true 1002).2 =
      [Eff.relay "ABCD" "h" "play_command"] ∧
    (clientReadyHandler stC10r "a" 50).2 =
      [Eff.allReady "h" "ABCD" ["a"]] :=
  ⟨⟨by decide,
    ((claim10_disconnect_clears_session_debounce.1 stC10 "c" "ABCD" 1001
        (by decide)).1),
    ((claim10_disconnect_clears_session_debounce.1 stC10 "c" "ABCD" 1001
        (by decide)).2)⟩,
   claim10_disconnect_clears_session_debounce.2.1
     (step stC10 (Ev.disconnect "c" 1001)).1 "h" "ABCD" sessC10 1002
     (by decide) (by decide) (by decide) (by decide),
   claim10_disconnect_clears_session_debounce.2.2
     stC10r "a" "ABCD" ⟨some ⟨"h", "Ann"⟩, [⟨"a", "Al"⟩], none, 0, 1, none⟩
     ⟨"h", "Ann"⟩ 50
     (by decide) (by decide) (by decide) (by decide) (by decide) (by decide)
     (by decide)⟩

/-! ### Claim C9 -/

theorem countPlayRelays_append (a b : List Eff) :
    countPlayRelays (a ++ b) = countPlayRelays a + countPlayRelays b := by
  simp [countPlayRelays, List.filter_append]

/-- While every incoming play command is within 100 ms of the last accepted
timestamp, the play handler drops everything: state unchanged, nothing
forwarded. -/
theorem play_drop_all (sid code : String) (L : Nat) :
    ∀ (ts : List Nat) (st : SrvState),
      (st.socks sid).sessionCode = some code →
      st.debounce code = some L →
      (∀ t ∈ ts, t < L + 100) →
      run st (playEvents sid ts) = (st, []) := by
  intro ts
  induction ts with
  | nil => intro st _ _ _; rfl
  | cons t ts ih =>
    intro st hsm hdeb hwin
    have ht : t < L + 100 := hwin t (by simp)
    have hlt : t - L < 100 := by omega
    have hstep : step st (Ev.play sid true t) = (st, []) := by
      cases hs : st.sessions code with
      | none => simp [step, playHandler, hsm, hs]
      | some s => simp [step, playHandler, hsm, hs, hdeb, hlt]
    have ihr := ih st hsm hdeb (fun t' ht' => hwin t' (List.mem_cons_of_mem _ ht'))
    show run st (Ev.play sid true t :: playEvents sid ts) = (st, [])
    rw [run, hstep]
    simp [ihr]

/-- Play commands each spaced strictly more than 100 ms after the previous
accepted timestamp are all forwarded (generalized over the last accepted
timestamp recorded in the debounce entry). -/
theorem play_spaced_all (sid code : String) :
    ∀ (ts : List Nat) (st : SrvState) (s : Session) (L : Nat),
      (st.socks sid).sessionCode = some code →
      st.sessions code = some s →
      (st.debounce code).getD 0 = L →
      List.Chain (fun a b => a + 100 < b) L ts →
      countPlayRelays (run st (playEvents sid ts)).2 = ts.length := by
  intro ts
  induction ts with
  | nil => intro st s L _ _ _ _; simp [playEvents, run, countPlayRelays]
  | cons t ts ih =>
    intro st s L hsm hs hdeb hchain
    cases hchain with
    | cons hLt hchain' =>
      have hlt : ¬ (t - (st.debounce code).getD 0 < 100) := by
        rw [hdeb]; omega
      have hstep : step st (Ev.play sid true t) =
          ({ st with
              sessions := upd st.sessions code
                (some { s with lastActivity := t }),
              debounce := upd st.debounce code (some t) },
           [Eff.relay code sid "play_command"]) := by
        simp [step, playHandler, hsm, hs, hlt]
      have hrest := ih
        { st with
            sessions := upd st.sessions code
              (some { s with lastActivity := t }),
            debounce := upd st.debounce code (some t) }
        { s with lastActivity := t } t
        hsm (upd_same _ _ _) (by simp) hchain'
      show countPlayRelays
        (run st (Ev.play sid true t :: playEvents sid ts)).2 = ts.length + 1
      rw [run, hstep]
      dsimp only
      rw [countPlayRelays_append, hrest]
      have hone : countPlayRelays [Eff.relay code sid "play_command"] = 1 := rfl
      rw [hone]
      omega

/-- Claim C9: (a) any number of play_command events within a window shorter
than the 100 ms minimum interval result in at most one forwarded command;
(b) play_command events each spaced strictly more than 100 ms after the
previous (starting from an empty debounce entry) are all forwarded. -/
theorem claim9_play_debounce_bound :
    (∀ (st : SrvState) (sid : String) (lo : Nat) (ts : List Nat),
      (∀ t ∈ ts, lo ≤ t ∧ t < lo + 100) →
      countPlayRelays (run st (playEvents sid ts)).2 ≤ 1) ∧
    (∀ (st : SrvState) (sid code : String) (s : Session) (ts : List Nat),
      (st.socks sid).sessionCode = some code →
      st.sessions code = some s →
      st.debounce code = none →
      List.Chain (fun a b => a + 100 < b) 0 ts →
      countPlayRelays (run st (playEvents sid ts)).2 = ts.length) := by
  constructor
  · intro st sid lo ts
    induction ts generalizing st with
    | nil => intro _; simp [playEvents, run, countPlayRelays]
    | cons t ts ih =>
      intro hwin
      have htlo : lo ≤ t ∧ t < lo + 100 := hwin t (by simp)
      have hwin' : ∀ t' ∈ ts, lo ≤ t' ∧ t' < lo + 100 :=
        fun t' ht' => hwin t' (List.mem_cons_of_mem _ ht')
      cases hsc : (st.socks sid).sessionCode with
      | none =>
        have hstep : step st (Ev.play sid true t) = (st, []) := by
          simp [step, playHandler, hsc]
        show countPlayRelays
          (run st (Ev.play sid true t :: playEvents sid ts)).2 ≤ 1
        rw [run, hstep]
        simpa using ih st hwin'
      | some code =>
        cases hs : st.sessions code with
        | none =>
          have hstep : step st (Ev.play sid true t) = (st, []) := by
            simp [step, playHandler, hsc, hs]
          show countPlayRelays
            (run st (Ev.play sid true t :: playEvents sid ts)).2 ≤ 1
          rw [run, hstep]
          simpa using ih st hwin'
        | some s =>
          by_cases hlt : t - (st.debounce code).getD 0 < 100
          · have hstep : step st (Ev.play sid true t) = (st, []) := by
              simp [step, playHandler, hsc, hs, hlt]
            show countPlayRelays
              (run st (Ev.play sid true t :: playEvents sid ts)).2 ≤ 1
            rw [run, hstep]
            simpa using ih st hwin'
          · have hstep : step st (Ev.play sid true t) =
                ({ st with
                    sessions := upd st.sessions code
                      (some { s with lastActivity := t }),
                    debounce := upd st.debounce code (some t) },
                 [Eff.relay code sid "play_command"]) := by
              simp [step, playHandler, hsc, hs, hlt]
            have hrest := play_drop_all sid code t ts
              { st with
                  sessions := upd st.sessions code
                    (some { s with lastActivity := t }),
                  debounce := upd st.debounce code (some t) }
              hsc (upd_same _ _ _)
              (fun t' ht' => by
                have := hwin' t' ht'
                omega)
            show countPlayRelays
              (run st (Ev.play sid true t :: playEvents sid ts)).2 ≤ 1
            rw [run, hstep]
            simp [hrest, countPlayRelays]
  · intro st sid code s ts hsm hs hdeb hchain
    exact play_spaced_all sid code ts st s 0 hsm hs (by rw [hdeb]; rfl) hchain

/-- Witness for C9 at concrete inputs: three play commands within a 50 ms
window forward at most once; three play commands spaced 200 ms apart all
forward. -/
theorem claim9_witness :
    countPlayRelays (run stC9 (playEvents "h" [1000, 1010, 1050])).2 ≤ 1 ∧
    countPlayRelays (run stC9 (playEvents "h" [1000, 1200, 1400])).2 = 3 :=
  ⟨claim9_play_debounce_bound.1 stC9 "h" 1000 [1000, 1010, 1050] (by decide),
   claim9_play_debounce_bound.2 stC9 "h" "ABCD"
     ⟨some ⟨"h", "Ann"⟩, [⟨"a", "Al"⟩], none, 0, 1, none⟩ [1000, 1200, 1400]
     (by decide) (by decide) (by decide)
     (List.Chain.cons (by omega)
       (List.Chain.cons (by omega)
         (List.Chain.cons (by omega) List.Chain.nil)))⟩

/-! ### Claim C2: amended registry-presence invariant -/

theorem disconnectCleanup_sessions (st : SrvState) (sm : SockMeta)
    (sid : String) : (disconnectCleanup st sm sid).sessions = st.sessions := by
  unfold disconnectCleanup
  cases sm.sessionCode with
  | none => rfl
  | some code =>
    dsimp only
    cases st.readiness code <;> rfl

theorem clientReadyHandler_sessions (st : SrvState) (sid : String)
    (now : Nat) : (clientReadyHandler st sid now).1.sessions = st.sessions := by
  unfold clientReadyHandler
  repeat' (first | rfl | split | (dsimp only; split))

theorem clientNotReadyHandler_sessions (st : SrvState) (sid : String) :
    (clientNotReadyHandler st sid).1.sessions = st.sessions := by
  unfold clientNotReadyHandler
  repeat' (first | rfl | split | (dsimp only; split))

theorem hostlessMarked_join (st : SrvState) (sid sess role nm : String)
    (now : Nat) (hM : HostlessMarked st) :
    HostlessMarked (joinHandler st sid sess role nm now).1 := by
  by_cases hv1 : validateSessionCode sess = true
  case neg =>
    have hv1' : validateSessionCode sess = false := by
      revert hv1; cases validateSessionCode sess <;> simp
    simpa [joinHandler, hv1'] using hM
  by_cases hv2 : validateRole role = true
  case neg =>
    have hv2' : validateRole role = false := by
      revert hv2; cases validateRole role <;> simp
    simpa [joinHandler, hv1, hv2'] using hM
  by_cases hv3 : validateUserName nm = true
  case neg =>
    have hv3' : validateUserName nm = false := by
      revert hv3; cases validateUserName nm <;> simp
    simpa [joinHandler, hv1, hv2, hv3'] using hM
  have hrole : role = "host" ∨ role = "client" := by
    revert hv2; unfold validateRole
    cases hh : role == "host" with
    | true => intro _; exact Or.inl (by simpa using hh)
    | false => intro hv; exact Or.inr (by simpa using hv)
  rcases hrole with rfl | rfl
  · -- host join: the joined session gets a host installed
    have heq : (joinHandler st sid sess "host" nm now).1.sessions =
        upd st.sessions sess
          (some { ((st.sessions sess).getD (freshSession now)) with
                  lastActivity := now, host := some ⟨sid, jsTrim nm⟩ }) := by
      simp [joinHandler, validateRole, hv1, hv3, runHostOps_hostBranch]
    intro c s' hlook hnone
    rw [heq] at hlook
    by_cases hc : c = sess
    · rw [hc, upd_same] at hlook
      cases hlook
      simp at hnone
    · rw [upd_other _ _ _ _ hc] at hlook
      exact hM c s' hlook hnone
  · -- client join
    by_cases hex : (match st.sessions sess with
        | some s => s.host.isSome
        | none => false) = true
    case neg =>
      have hex' : (match st.sessions sess with
          | some s => s.host.isSome
          | none => false) = false := by
        revert hex
        cases (match st.sessions sess with
          | some s => s.host.isSome
          | none => false) <;> simp
      simpa [joinHandler, validateRole, hv1, hv3, hex'] using hM
    cases hs0 : st.sessions sess with
    | none => rw [hs0] at hex; simp at hex
    | some s0 =>
      have hh0 : s0.host.isSome = true := by rw [hs0] at hex; simpa using hex
      by_cases hfull :
          decide (MAX_CLIENTS_PER_SESSION ≤ s0.clients.length) = true
      case pos =>
        have heq : (joinHandler st sid sess "client" nm now).1 = st := by
          simp [joinHandler, validateRole, hv1, hv3, hs0, hfull, hh0]
        simpa [heq] using hM
      case neg =>
        have heq : (joinHandler st sid sess "client" nm now).1.sessions =
            upd st.sessions sess
              (some ⟨s0.host,
                s0.clients.filter
                    (fun c => c.id != sid && c.name != jsTrim nm) ++
                  [⟨sid, jsTrim nm⟩],
                s0.audio, s0.createdAt, now, s0.hostDisconnectedAt⟩) := by
          simp [joinHandler, validateRole, hv1, hv3, hs0, hfull, hh0]
        intro c s' hlook hnone
        rw [heq] at hlook
        by_cases hc : c = sess
        · rw [hc, upd_same] at hlook
          cases hlook
          simp at hnone
          rw [hnone] at hh0
          simp at hh0
        · rw [upd_other _ _ _ _ hc] at hlook
          exact hM c s' hlook hnone

theorem disconnectSessionsCore_marked (sessions : String → Option Session)
    (sm : SockMeta) (sid : String) (now : Nat)
    (hM : ∀ c s, sessions c = some s → s.host = none →
      s.hostDisconnectedAt ≠ none) :
    ∀ c s', (disconnectSessionsCore sessions sm sid now).1 c = some s' →
      s'.host = none → s'.hostDisconnectedAt ≠ none := by
  unfold disconnectSessionsCore
  cases hsc : sm.sessionCode with
  | none => exact hM
  | some code =>
    dsimp only
    cases hs : sessions code with
    | none => exact hM
    | some s =>
      dsimp only
      intro c s' hlook hnone
      try dsimp only at hlook
      repeat' split at hlook
      all_goals try dsimp only at hlook
      all_goals repeat' split at hlook
      all_goals try dsimp only at hlook
      all_goals repeat' split at hlook
      all_goals try dsimp only at hlook
      all_goals
        (by_cases hc : c = code
         · subst hc
           rw [upd_same] at hlook
           first
           | exact Option.noConfusion hlook
           | (cases hlook
              first
              | exact fun hcontra => Option.noConfusion hcontra
              | exact hM _ s hs hnone)
         · simp only [upd, if_neg hc] at hlook
           exact hM c s' hlook hnone)

theorem hostlessMarked_disconnect (st : SrvState) (sid : String) (now : Nat)
    (hM : HostlessMarked st) :
    HostlessMarked (disconnectHandler st sid now).1 := by
  intro c s' hlook hnone
  have hlook' : (disconnectSessionsCore st.sessions (st.socks sid) sid now).1
      c = some s' := by
    have hA := disconnectCleanup_sessions st (st.socks sid) sid
    have hlook2 : (disconnectSessionsCore
        (disconnectCleanup st (st.socks sid) sid).sessions
        (st.socks sid) sid now).1 c = some s' := hlook
    rw [hA] at hlook2
    exact hlook2
  exact disconnectSessionsCore_marked st.sessions (st.socks sid) sid now
    (fun c2 s2 h2 => hM c2 s2 h2) c s' hlook' hnone

theorem hostlessMarked_graceFire (st : SrvState) (code : String)
    (hM : HostlessMarked st) : HostlessMarked (graceTimerFire st code).1 := by
  unfold graceTimerFire
  cases hs : st.sessions code with
  | none => exact hM
  | some s =>
    dsimp only
    split
    · intro c s' hlook hnone
      have hlook2 : upd st.sessions code none c = some s' := hlook
      by_cases hc : c = code
      · subst hc
        rw [upd_same] at hlook2
        exact Option.noConfusion hlook2
      · rw [upd_other _ _ _ _ hc] at hlook2
        exact hM c s' hlook2 hnone
    · exact hM

theorem hostlessMarked_play (st : SrvState) (sid : String) (v : Bool)
    (now : Nat) (hM : HostlessMarked st) :
    HostlessMarked (playHandler st sid v now).1 := by
  unfold playHandler
  cases hsc : (st.socks sid).sessionCode with
  | none => exact hM
  | some code =>
    dsimp only
    cases hs : st.sessions code with
    | none => exact hM
    | some s =>
      dsimp only
      split
      · exact hM
      · split
        · exact hM
        · intro c s' hlook hnone
          have hlook2 : upd st.sessions code
              (some { s with lastActivity := now }) c = some s' := hlook
          by_cases hc : c = code
          · rw [hc, upd_same] at hlook2
            cases hlook2
            exact hM code s hs hnone
          · rw [upd_other _ _ _ _ hc] at hlook2
            exact hM c s' hlook2 hnone

theorem hostlessMarked_audioUpload (st : SrvState) (sid : String) (a : Audio)
    (now : Nat) (hM : HostlessMarked st) :
    HostlessMarked (audioUploadHandler st sid a now).1 := by
  unfold audioUploadHandler
  cases hsc : (st.socks sid).sessionCode with
  | none => exact hM
  | some code =>
    dsimp only
    cases hs : st.sessions code with
    | none => exact hM
    | some s =>
      dsimp only
      split
      · exact hM
      · split
        · exact hM
        · intro c s' hlook hnone
          have hlook2 : upd st.sessions code
              (some { s with audio := some a, lastActivity := now }) c =
                some s' := hlook
          by_cases hc : c = code
          · rw [hc, upd_same] at hlook2
            cases hlook2
            exact hM code s hs hnone
          · rw [upd_other _ _ _ _ hc] at hlook2
            exact hM c s' hlook2 hnone

theorem hostlessMarked_disconnectClient (st : SrvState) (sid cid : String)
    (hM : HostlessMarked st) :
    HostlessMarked (disconnectClientHandler st sid cid).1 := by
  unfold disconnectClientHandler
  cases hsc : (st.socks sid).sessionCode with
  | none => exact hM
  | some code =>
    dsimp only
    cases hs : st.sessions code with
    | none => exact hM
    | some s =>
      dsimp only
      cases hidx : s.clients.findIdx? (fun c => c.id == cid) with
      | none => exact hM
      | some i =>
        intro c s' hlook hnone
        have hlook2 : upd st.sessions code
            (some { s with clients := s.clients.eraseIdx i }) c =
              some s' := hlook
        by_cases hc : c = code
        · rw [hc, upd_same] at hlook2
          cases hlook2
          exact hM code s hs hnone
        · rw [upd_other _ _ _ _ hc] at hlook2
          exact hM c s' hlook2 hnone

theorem step_hostlessMarked (st : SrvState) (e : Ev) (hM : HostlessMarked st) :
    HostlessMarked (step st e).1 := by
  cases e with
  | join sid sess role nm t => exact hostlessMarked_join st sid sess role nm t hM
  | disconnect sid t =>
    exact hostlessMarked_disconnect
      { st with connected := fun i => if i = sid then false else st.connected i }
      sid t hM
  | graceFire code t => exact hostlessMarked_graceFire st code hM
  | clientReady sid t =>
    intro c s' hlook hnone
    have hlook2 : (clientReadyHandler st sid t).1.sessions c = some s' := hlook
    rw [clientReadyHandler_sessions] at hlook2
    exact hM c s' hlook2 hnone
  | clientNotReady sid t =>
    intro c s' hlook hnone
    have hlook2 : (clientNotReadyHandler st sid).1.sessions c = some s' := hlook
    rw [clientNotReadyHandler_sessions] at hlook2
    exact hM c s' hlook2 hnone
  | play sid v t => exact hostlessMarked_play st sid v t hM
  | audioUpload sid a t => exact hostlessMarked_audioUpload st sid a t hM
  | disconnectClient sid cid t =>
    exact hostlessMarked_disconnectClient st sid cid hM

theorem run_hostlessMarked (evs : List Ev) :
    ∀ st : SrvState, HostlessMarked st → HostlessMarked (run st evs).1 := by
  induction evs with
  | nil => intro st h; exact h
  | cons e es ih =>
    intro st h
    show HostlessMarked (run (step st e).1 es).1
    exact ih (step st e).1 (step_hostlessMarked st e h)

/-- Claim C2 amended: in every state reachable from the initial state, a
session present in the registry has a host, or at least one client, or its
hostDisconnectedAt marker set (it entered its grace period); the converse
protection claimed by C2 fails — see the counterexample. -/
theorem claim2_registry_presence_amended (evs : List Ev) (code : String)
    (s : Session) (hlook : (run initState evs).1.sessions code = some s) :
    s.host ≠ none ∨ s.clients ≠ [] ∨ s.hostDisconnectedAt ≠ none := by
  have hM : HostlessMarked (run initState evs).1 :=
    run_hostlessMarked evs initState
      (fun c s' h => by simp [initState] at h)
  cases hh : s.host with
  | some m => exact Or.inl (by simp [hh])
  | none => exact Or.inr (Or.inr (hM code s hlook hh))

/-- Witness for the amended C2 at a concrete trace: after the host of ABCD
disconnects leaving one client, the session is still present and satisfies
the disjunction (it has a client, and carries its grace marker). -/
theorem claim2_witness :
    (run initState [Ev.join "h1" "ABCD" "host" "Ann" 0,
                    Ev.join "c1" "ABCD" "client" "Bob" 1,
                    Ev.disconnect "h1" 2]).1.sessions "ABCD" =
      some ⟨none, [⟨"c1", "Bob"⟩], none, 0, 1, some 2⟩ ∧
    ((⟨none, [⟨"c1", "Bob"⟩], none, 0, 1, some 2⟩ : Session).host ≠ none ∨
     (⟨none, [⟨"c1", "Bob"⟩], none, 0, 1, some 2⟩ : Session).clients ≠ [] ∨
     (⟨none, [⟨"c1", "Bob"⟩], none, 0, 1, some 2⟩ : Session).hostDisconnectedAt
       ≠ none) :=
  ⟨by decide,
   claim2_registry_presence_amended
     [Ev.join "h1" "ABCD" "host" "Ann" 0,
      Ev.join "c1" "ABCD" "client" "Bob" 1,
      Ev.disconnect "h1" 2] "ABCD"
     ⟨none, [⟨"c1", "Bob"⟩], none, 0, 1, some 2⟩ (by decide)⟩

/-! ### Shared lemmas for the grace-period claims (C3, C4) -/

theorem disconnectCleanup_socks (st : SrvState) (sm : SockMeta)
    (sid : String) : (disconnectCleanup st sm sid).socks = st.socks := by
  unfold disconnectCleanup
  cases sm.sessionCode with
  | none => rfl
  | some code =>
    dsimp only
    cases st.readiness code <;> rfl

/-- The session block on a host's own disconnect: mark the grace period,
clear the host slot, and emit exactly the waiting notice and the armed
timer. -/
theorem disconnectSessionsCore_host (sessions : String → Option Session)
    (sm : SockMeta) (sid : String) (now : Nat) (c : String) (s : Session)
    (h : Member)
    (hsm : sm.sessionCode = some c) (hrole : sm.role = some "host")
    (hs : sessions c = some s) (hhost : s.host = some h) (hid : h.id = sid) :
    disconnectSessionsCore sessions sm sid now =
      (upd sessions c (some ⟨none, s.clients, s.audio, s.createdAt,
         s.lastActivity, some now⟩),
       [Eff.hostDisconnect c HOST_GRACE_PERIOD,
        Eff.armTimer c (now + HOST_GRACE_PERIOD)]) := by
  simp [disconnectSessionsCore, hsm, hs, hrole, hhost, hid]

/-- The disconnect handler on a host's own disconnect: the registry marks
the grace period, the socket table is untouched, and the only effects are
the waiting notice and the armed timer. -/
theorem disconnectHandler_host (st : SrvState) (sid : String) (now : Nat)
    (c : String) (s : Session) (h : Member)
    (hsm : (st.socks sid).sessionCode = some c)
    (hrole : (st.socks sid).role = some "host")
    (hs : st.sessions c = some s) (hhost : s.host = some h)
    (hid : h.id = sid) :
    (disconnectHandler st sid now).1.sessions =
      upd st.sessions c (some ⟨none, s.clients, s.audio, s.createdAt,
        s.lastActivity, some now⟩) ∧
    (disconnectHandler st sid now).2 =
      [Eff.hostDisconnect c HOST_GRACE_PERIOD,
       Eff.armTimer c (now + HOST_GRACE_PERIOD)] ∧
    (disconnectHandler st sid now).1.socks = st.socks := by
  have hAs := disconnectCleanup_sessions st (st.socks sid) sid
  have hcore := disconnectSessionsCore_host
    (disconnectCleanup st (st.socks sid) sid).sessions (st.socks sid) sid now
    c s h hsm hrole (by rw [hAs]; exact hs) hhost hid
  refine ⟨?_, ?_, ?_⟩
  · show (disconnectSessionsCore
        (disconnectCleanup st (st.socks sid) sid).sessions
        (st.socks sid) sid now).1 = _
    rw [hcore, hAs]
  · show (disconnectSessionsCore
        (disconnectCleanup st (st.socks sid) sid).sessions
        (st.socks sid) sid now).2 = _
    rw [hcore]
  · show (disconnectCleanup st (st.socks sid) sid).socks = st.socks
    exact disconnectCleanup_socks st (st.socks sid) sid

/-- Joining as host of a session whose host slot is empty: the host is
installed in place (clients, audio, and the grace marker untouched), and no
transport close is ever emitted. -/
theorem joinHandler_host_no_old (st : SrvState) (sid sess nm : String)
    (now : Nat) (s : Session)
    (hcode : validateSessionCode sess = true)
    (hname : validateUserName nm = true)
    (hs : st.sessions sess = some s) (hnone : s.host = none) :
    (joinHandler st sid sess "host" nm now).1.sessions =
      upd st.sessions sess (some ⟨some ⟨sid, jsTrim nm⟩, s.clients, s.audio,
        s.createdAt, now, s.hostDisconnectedAt⟩) ∧
    (joinHandler st sid sess "host" nm now).2.filter Eff.isClose = [] := by
  constructor
  · simp [joinHandler, validateRole, hcode, hname, hs,
      runHostOps_hostBranch, hnone]
  · cases hau : s.audio with
    | none =>
      simp [joinHandler, validateRole, hcode, hname, hs,
        runHostOps_hostBranch, hnone, hau, Eff.isClose]
    | some a =>
      simp [joinHandler, validateRole, hcode, hname, hs,
        runHostOps_hostBranch, hnone, hau, Eff.isClose]

/-- The grace timer body is a no-op when a host is attached at fire time. -/
theorem graceTimerFire_host_present (st : SrvState) (code : String)
    (s : Session) (hs : st.sessions code = some s) (hhost : s.host ≠ none) :
    graceTimerFire st code = (st, []) := by
  unfold graceTimerFire
  rw [hs]
  dsimp only
  rw [if_neg hhost]

/-! ### Claim C4 -/

/-- Claim C4 amended: when a connection rejoins with role host for the
session's code, hostDisconnectedAt is NOT cleared — the join handler
preserves it exactly (no code path ever clears it), so it is not present
only during the grace period; the no-op of a late timer relies solely on
re-checking host at fire time: a grace timer firing while a host is
attached leaves the state unchanged and emits nothing. -/
theorem claim4_amended :
    (∀ (st : SrvState) (sid sess nm : String) (now : Nat) (s : Session),
      validateSessionCode sess = true → validateUserName nm = true →
      st.sessions sess = some s →
      ((joinHandler st sid sess "host" nm now).1.sessions sess).map
          Session.hostDisconnectedAt = some s.hostDisconnectedAt ∧
      ((joinHandler st sid sess "host" nm now).1.sessions sess).map
          Session.host = some (some ⟨sid, jsTrim nm⟩)) ∧
    (∀ (st : SrvState) (code : String) (s : Session),
      st.sessions code = some s → s.host ≠ none →
      graceTimerFire st code = (st, [])) := by
  constructor
  · intro st sid sess nm now s hcode hname hs
    constructor <;>
      simp [joinHandler, validateRole, hcode, hname, hs, runHostOps_hostBranch]
  · intro st code s hs hhost
    exact graceTimerFire_host_present st code s hs hhost

/-- Witness for the amended C4: host h1 of ABCD disconnected at 5; h2
rejoins at 10 and the stale marker (5) survives next to the new host; in
the final state the timer fire is a no-op. -/
theorem claim4_witness :
    stC4a.sessions "ABCD" = some ⟨none, [], none, 0, 0, some 5⟩ ∧
    (((joinHandler stC4a "h2" "ABCD" "host" "Bea" 10).1.sessions "ABCD").map
        Session.hostDisconnectedAt = some (some 5) ∧
     ((joinHandler stC4a "h2" "ABCD" "host" "Bea" 10).1.sessions "ABCD").map
        Session.host = some (some ⟨"h2", jsTrim "Bea"⟩)) ∧
    graceTimerFire stC4b "ABCD" = (stC4b, []) :=
  ⟨by decide,
   claim4_amended.1 stC4a "h2" "ABCD" "Bea" 10 ⟨none, [], none, 0, 0, some 5⟩
     (by decide) (by decide) (by decide),
   claim4_amended.2 stC4b "ABCD" ⟨some ⟨"h2", "Bea"⟩, [], none, 0, 10, some 5⟩
     (by decide) (by decide)⟩

/-! ### Claim C3 -/

/-- Claim C3 amended (single cycle): if the session's host disconnects and
some connection rejoins with role host before the (single) armed timer
fires, then the timer fire is a no-op, the session's clients and cached
audio payload are exactly preserved through the whole cycle, and no
transport connection is forcibly closed at any point.  (With repeated
cycles and several armed timers this fails — see the counterexample.) -/
theorem claim3_single_cycle_amended
    (st : SrvState) (c : String) (s : Session) (h : Member) (hnm : String)
    (sid2 nm : String) (t0 t1 t2 : Nat)
    (hs : st.sessions c = some s)
    (hhost : s.host = some h)
    (hsm : st.socks h.id = ⟨some c, some "host", some hnm⟩)
    (hcode : validateSessionCode c = true)
    (hname : validateUserName nm = true) :
    ((step (step (step st (Ev.disconnect h.id t0)).1
        (Ev.join sid2 c "host" nm t1)).1 (Ev.graceFire c t2)).1.sessions c =
      some ⟨some ⟨sid2, jsTrim nm⟩, s.clients, s.audio, s.createdAt, t1,
        some t0⟩) ∧
    (((step st (Ev.disconnect h.id t0)).2 ++
      (step (step st (Ev.disconnect h.id t0)).1
        (Ev.join sid2 c "host" nm t1)).2 ++
      (step (step (step st (Ev.disconnect h.id t0)).1
        (Ev.join sid2 c "host" nm t1)).1 (Ev.graceFire c t2)).2).filter
          Eff.isClose = []) ∧
    (step (step (step st (Ev.disconnect h.id t0)).1
        (Ev.join sid2 c "host" nm t1)).1 (Ev.graceFire c t2)) =
      ((step (step st (Ev.disconnect h.id t0)).1
        (Ev.join sid2 c "host" nm t1)).1, []) := by
  have hd := disconnectHandler_host
    { st with connected := fun i => if i = h.id then false else st.connected i }
    h.id t0 c s h (by rw [hsm]) (by rw [hsm]) hs hhost rfl
  have e1s : (step st (Ev.disconnect h.id t0)).1.sessions =
      upd st.sessions c (some ⟨none, s.clients, s.audio, s.createdAt,
        s.lastActivity, some t0⟩) := hd.1
  have e1e : (step st (Ev.disconnect h.id t0)).2 =
      [Eff.hostDisconnect c HOST_GRACE_PERIOD,
       Eff.armTimer c (t0 + HOST_GRACE_PERIOD)] := hd.2.1
  have hj := joinHandler_host_no_old (step st (Ev.disconnect h.id t0)).1
    sid2 c nm t1 ⟨none, s.clients, s.audio, s.createdAt,
      s.lastActivity, some t0⟩ hcode hname
    (by rw [e1s, upd_same]) rfl
  have e2s : (step (step st (Ev.disconnect h.id t0)).1
      (Ev.join sid2 c "host" nm t1)).1.sessions c =
      some ⟨some ⟨sid2, jsTrim nm⟩, s.clients, s.audio, s.createdAt, t1,
        some t0⟩ := by
    show (joinHandler (step st (Ev.disconnect h.id t0)).1
      sid2 c "host" nm t1).1.sessions c = _
    rw [hj.1, upd_same]
  have e3 : (step (step (step st (Ev.disconnect h.id t0)).1
      (Ev.join sid2 c "host" nm t1)).1 (Ev.graceFire c t2)) =
      ((step (step st (Ev.disconnect h.id t0)).1
        (Ev.join sid2 c "host" nm t1)).1, []) := by
    show graceTimerFire _ c = _
    exact graceTimerFire_host_present _ c
      ⟨some ⟨sid2, jsTrim nm⟩, s.clients, s.audio, s.createdAt, t1, some t0⟩
      e2s (by simp)
  refine ⟨?_, ?_, e3⟩
  · rw [e3]
    exact e2s
  · have e2e : (step (step st (Ev.disconnect h.id t0)).1
        (Ev.join sid2 c "host" nm t1)).2.filter Eff.isClose = [] := hj.2
    rw [e3, e1e]
    simp only [List.filter_append]
    rw [e2e]
    simp [Eff.isClose]

/-- Witness for the amended C3 at a concrete single cycle: h1 disconnects
at 3, h2 rejoins at 4, the timer fires at 300003 as a no-op; client c1 and
the uploaded audio survive and nothing is closed. -/
theorem claim3_witness :
    stC3w.sessions "ABCD" = some sessC3w ∧
    (((step (step (step stC3w (Ev.disconnect "h1" 3)).1
        (Ev.join "h2" "ABCD" "host" "Cal" 4)).1
        (Ev.graceFire "ABCD" 300003)).1.sessions "ABCD" =
      some ⟨some ⟨"h2", jsTrim "Cal"⟩, sessC3w.clients, sessC3w.audio,
        sessC3w.createdAt, 4, some 3⟩) ∧
     (((step stC3w (Ev.disconnect "h1" 3)).2 ++
       (step (step stC3w (Ev.disconnect "h1" 3)).1
         (Ev.join "h2" "ABCD" "host" "Cal" 4)).2 ++
       (step (step (step stC3w (Ev.disconnect "h1" 3)).1
         (Ev.join "h2" "ABCD" "host" "Cal" 4)).1
         (Ev.graceFire "ABCD" 300003)).2).filter Eff.isClose = []) ∧
     (step (step (step stC3w (Ev.disconnect "h1" 3)).1
        (Ev.join "h2" "ABCD" "host" "Cal" 4)).1 (Ev.graceFire "ABCD" 300003)) =
      ((step (step stC3w (Ev.disconnect "h1" 3)).1
        (Ev.join "h2" "ABCD" "host" "Cal" 4)).1, [])) :=
  ⟨by decide,
   claim3_single_cycle_amended stC3w "ABCD" sessC3w ⟨"h1", "Ann"⟩ "Ann"
     "h2" "Cal" 3 4 300003
     (by decide) (by decide) (by decide) (by decide) (by decide)⟩

/-! ### Claim C5 -/

/-- Claim C5 amended: the all-clients-ready de-duplication is a 1000 ms
time window, not a per-transition latch: (i) a client-ready processed at
most 1000 ms after the last notification emits nothing, whatever the
barrier state; (ii) a client-ready resent by a client already in the ready
set (so the set does not change), processed more than 1000 ms after the
last notification while the barrier is still satisfied and the host
connected, emits a second all-clients-ready for the same quorum event. -/
theorem claim5_window_dedup_amended :
    (∀ (st : SrvState) (sid code : String) (now last : Nat),
      (st.socks sid).sessionCode = some code →
      st.debounce (code ++ "_all_ready") = some last →
      now - last ≤ 1000 →
      countAllReady (clientReadyHandler st sid now).2 = 0) ∧
    (∀ (st : SrvState) (sid code : String) (l : List String) (s : Session)
       (h : Member) (now last : Nat),
      (st.socks sid).sessionCode = some code →
      st.readiness code = some l → sid ∈ l →
      st.sessions code = some s → 0 < s.clients.length →
      s.clients.all (fun c => l.contains c.id) = true →
      s.host = some h → st.connected h.id = true →
      st.debounce (code ++ "_all_ready") = some last →
      1000 < now - last →
      (clientReadyHandler st sid now).2 = [Eff.allReady h.id code l]) := by
  constructor
  · intro st sid code now last hsm hdeb hwin
    have hok : ¬ (1000 < now - last) := by omega
    unfold clientReadyHandler
    rw [hsm]
    dsimp only
    repeat' split
    all_goals simp_all [countAllReady]
    all_goals omega
  · intro st sid code l s h now last hsm hrd hmem hs hlen hall hhost hcon hdeb hgt
    have hl' : addReady l sid = l := by simp [addReady, hmem]
    have hall' : ∀ x ∈ s.clients, x.id ∈ addReady l sid := by
      rw [hl']
      simpa using hall
    simp [clientReadyHandler, hsm, hs, hlen, hhost, hcon, hrd, hdeb, hgt]
    rw [if_pos hall']
    simp [hl']

/-- Witness for the amended C5: in the counterexample state right after the
first notification (time 20), a resend by client a at 900 is suppressed;
the same resend at 2000 produces a second notification. -/
theorem claim5_witness :
    countAllReady (clientReadyHandler stC5w "a" 900).2 = 0 ∧
    (clientReadyHandler stC5w "a" 2000).2 =
      [Eff.allReady "h" "ABCD" ["a", "b"]] :=
  ⟨claim5_window_dedup_amended.1 stC5w "a" "ABCD" 900 20
     (by decide) (by decide) (by decide),
   claim5_window_dedup_amended.2 stC5w "a" "ABCD" ["a", "b"]
     ⟨some ⟨"h", "Ann"⟩, [⟨"a", "Al"⟩, ⟨"b", "Bo"⟩], none, 0, 2, none⟩
     ⟨"h", "Ann"⟩ 2000 20
     (by decide) (by decide) (by decide) (by decide) (by decide) (by decide)
     (by decide) (by decide) (by decide) (by decide)⟩

/-! ### Claim C6 -/

theorem disconnectCleanup_readiness (st : SrvState) (sm : SockMeta)
    (sid code : String) (l : List String)
    (hsm : sm.sessionCode = some code) (hrd : st.readiness code = some l) :
    (disconnectCleanup st sm sid).readiness code =
      if l.erase sid = [] then none else some (l.erase sid) := by
  unfold disconnectCleanup
  rw [hsm]
  dsimp only
  rw [hrd]
  dsimp only
  rw [upd_same]

theorem clientReadyHandler_readiness (st : SrvState) (sid code : String)
    (now : Nat) (hsm : (st.socks sid).sessionCode = some code) :
    (clientReadyHandler st sid now).1.readiness =
      upd st.readiness code
        (some (addReady ((st.readiness code).getD []) sid)) := by
  unfold clientReadyHandler
  rw [hsm]
  dsimp only
  repeat' (first | rfl | split | (dsimp only; split))

/-- Claim C6 amended: ready-set entries are pruned when a connection
disconnects (the departing id never stays in its session's ready set), but
the subset property itself fails: the client-ready handler adds ANY sender
with a session binding to the session's ready set, whether or not it is a
current client (see the counterexample, where the host lands in the set). -/
theorem claim6_prune_and_add_amended :
    (∀ (st : SrvState) (sid code : String) (now : Nat) (l : List String),
      (st.socks sid).sessionCode = some code →
      st.readiness code = some l → l.Nodup →
      sid ∉ ((step st (Ev.disconnect sid now)).1.readiness code).getD []) ∧
    (∀ (st : SrvState) (sid code : String) (now : Nat),
      (st.socks sid).sessionCode = some code →
      sid ∈ ((clientReadyHandler st sid now).1.readiness code).getD []) := by
  constructor
  · intro st sid code now l hsm hrd hnd
    have hcl : (step st (Ev.disconnect sid now)).1.readiness code =
        if l.erase sid = [] then none else some (l.erase sid) := by
      show (disconnectCleanup
          { st with connected := fun i => if i = sid then false
              else st.connected i }
          (st.socks sid) sid).readiness code = _
      exact disconnectCleanup_readiness _ (st.socks sid) sid code l hsm hrd
    rw [hcl]
    split
    · simp
    · simpa using hnd.not_mem_erase
  · intro st sid code now hsm
    rw [clientReadyHandler_readiness st sid code now hsm, upd_same]
    simp only [Option.getD_some]
    by_cases hmem : sid ∈ (st.readiness code).getD []
    · simpa [addReady, hmem] using hmem
    · simp [addReady, hmem]

/-- Witness for the amended C6: in a session with ready set containing a
and b, a's disconnect prunes a from the set; and in the base state a's
client-ready adds a to the set. -/
theorem claim6_witness :
    ("a" ∉ ((step stC5w (Ev.disconnect "a" 50)).1.readiness "ABCD").getD []) ∧
    "a" ∈ ((clientReadyHandler stC10r "a" 7).1.readiness "ABCD").getD [] :=
  ⟨claim6_prune_and_add_amended.1 stC5w "a" "ABCD" 50 ["a", "b"]
     (by decide) (by decide) (by decide),
   claim6_prune_and_add_amended.2 stC10r "a" "ABCD" 7 (by decide)⟩

/-! ### Claim C7 -/

/-- The session block on a client's disconnect always broadcasts a
presence-update computed from the client list after the removal. -/
theorem disconnectSessionsCore_client_presence
    (sessions : String → Option Session) (sm : SockMeta) (sid : String)
    (now : Nat) (c : String) (s : Session)
    (hsm : sm.sessionCode = some c) (hrole : sm.role = some "client")
    (hs : sessions c = some s) :
    Eff.presence c (s.host.map Member.name)
        (s.clients.filter (fun x => x.id != sid)) ∈
      (disconnectSessionsCore sessions sm sid now).2 := by
  simp [disconnectSessionsCore, hsm, hs, hrole]
  try (split <;> simp)

/-- No effect in a list of per-client closes is a presence update. -/
theorem countPresence_closes (l : List Member) :
    countPresence (l.map (fun c => Eff.close c.id)) = 0 := by
  induction l with
  | nil => rfl
  | cons x xs ih => simpa [countPresence, Eff.isPresence] using ih

/-- Claim C7 amended: after a join (either role), after a client's own
disconnect, and after a forced disconnect-client removal, a
presence-update whose clients list exactly matches the registry's client
set after the mutation is broadcast to the session; but after a host's own
disconnect (grace entry) and after grace-period expiry NO presence-update
is broadcast at all (clients receive host_disconnect notices instead). -/
theorem claim7_presence_amended :
    (∀ (st : SrvState) (sid sess nm : String) (now : Nat),
      validateSessionCode sess = true → validateUserName nm = true →
      ∃ s', (joinHandler st sid sess "host" nm now).1.sessions sess = some s' ∧
        Eff.presence sess (s'.host.map Member.name) s'.clients ∈
          (joinHandler st sid sess "host" nm now).2) ∧
    (∀ (st : SrvState) (sid sess nm : String) (now : Nat) (s0 : Session),
      validateSessionCode sess = true → validateUserName nm = true →
      st.sessions sess = some s0 → s0.host.isSome = true →
      s0.clients.length < MAX_CLIENTS_PER_SESSION →
      ∃ s', (joinHandler st sid sess "client" nm now).1.sessions sess =
          some s' ∧
        Eff.presence sess (s'.host.map Member.name) s'.clients ∈
          (joinHandler st sid sess "client" nm now).2) ∧
    (∀ (st : SrvState) (sid code : String) (now : Nat) (s : Session),
      (st.socks sid).sessionCode = some code →
      (st.socks sid).role = some "client" →
      st.sessions code = some s →
      Eff.presence code (s.host.map Member.name)
          (s.clients.filter (fun x => x.id != sid)) ∈
        (step st (Ev.disconnect sid now)).2) ∧
    (∀ (st : SrvState) (sid cid code : String) (s : Session) (i : Nat),
      (st.socks sid).sessionCode = some code →
      st.sessions code = some s →
      s.clients.findIdx? (fun x => x.id == cid) = some i →
      Eff.presence code (s.host.map Member.name) (s.clients.eraseIdx i) ∈
        (disconnectClientHandler st sid cid).2) ∧
    (∀ (st : SrvState) (sid code : String) (now : Nat) (s : Session)
       (h : Member),
      (st.socks sid).sessionCode = some code →
      (st.socks sid).role = some "host" →
      st.sessions code = some s → s.host = some h → h.id = sid →
      countPresence (step st (Ev.disconnect sid now)).2 = 0) ∧
    (∀ (st : SrvState) (code : String) (s : Session),
      st.sessions code = some s → s.host = none →
      countPresence (graceTimerFire st code).2 = 0) := by
  refine ⟨?_, ?_, ?_, ?_, ?_, ?_⟩
  · intro st sid sess nm now hcode hname
    cases hs : st.sessions sess with
    | none =>
      refine ⟨⟨some ⟨sid, jsTrim nm⟩, [], none, now, now, none⟩, ?_, ?_⟩ <;>
        simp [joinHandler, validateRole, hcode, hname, hs,
          runHostOps_hostBranch, freshSession]
    | some s0 =>
      refine ⟨⟨some ⟨sid, jsTrim nm⟩, s0.clients, s0.audio, s0.createdAt,
        now, s0.hostDisconnectedAt⟩, ?_, ?_⟩ <;>
        simp [joinHandler, validateRole, hcode, hname, hs,
          runHostOps_hostBranch]
  · intro st sid sess nm now s0 hcode hname hs0 hh0 hlt
    have hnotfull : ¬ MAX_CLIENTS_PER_SESSION ≤ s0.clients.length :=
      Nat.not_le.mpr hlt
    refine ⟨⟨s0.host,
      s0.clients.filter (fun c => c.id != sid && c.name != jsTrim nm) ++
        [⟨sid, jsTrim nm⟩],
      s0.audio, s0.createdAt, now, s0.hostDisconnectedAt⟩, ?_, ?_⟩ <;>
      simp [joinHandler, validateRole, hcode, hname, hs0, hh0, hnotfull]
  · intro st sid code now s hsm hrole hs
    have hAs := disconnectCleanup_sessions
      { st with connected := fun i => if i = sid then false
          else st.connected i }
      (st.socks sid) sid
    show Eff.presence code (s.host.map Member.name)
        (s.clients.filter (fun x => x.id != sid)) ∈
      (disconnectSessionsCore
        (disconnectCleanup
          { st with connected := fun i => if i = sid then false
              else st.connected i }
          (st.socks sid) sid).sessions
        (st.socks sid) sid now).2
    rw [hAs]
    exact disconnectSessionsCore_client_presence st.sessions (st.socks sid)
      sid now code s hsm hrole hs
  · intro st sid cid code s i hsm hs hidx
    simp [disconnectClientHandler, hsm, hs, hidx]
  · intro st sid code now s h hsm hrole hs hhost hid
    have hd := disconnectHandler_host
      { st with connected := fun i => if i = sid then false
          else st.connected i }
      sid now code s h hsm hrole hs hhost hid
    have he : (step st (Ev.disconnect sid now)).2 =
        [Eff.hostDisconnect code HOST_GRACE_PERIOD,
         Eff.armTimer code (now + HOST_GRACE_PERIOD)] := hd.2.1
    rw [he]
    rfl
  · intro st code s hs hhost
    unfold graceTimerFire
    rw [hs]
    dsimp only
    rw [if_pos hhost]
    show countPresence (Eff.hostDisconnect code 0 ::
      s.clients.map (fun c => Eff.close c.id)) = 0
    simpa [countPresence, Eff.isPresence] using countPresence_closes s.clients

/-- Witness for the amended C7: a host join and a client join each
broadcast a presence-update matching the stored session; a client's
disconnect and a forced removal each broadcast the filtered list; the
host's own disconnect and the grace-period expiry broadcast none. -/
theorem claim7_witness :
    (∃ s', (joinHandler initState "h1" "ABCD" "host" "Ann" 0).1.sessions
        "ABCD" = some s' ∧
      Eff.presence "ABCD" (s'.host.map Member.name) s'.clients ∈
        (joinHandler initState "h1" "ABCD" "host" "Ann" 0).2) ∧
    (∃ s', (joinHandler stC1 "c1" "ABCD" "client" "Bob" 1).1.sessions
        "ABCD" = some s' ∧
      Eff.presence "ABCD" (s'.host.map Member.name) s'.clients ∈
        (joinHandler stC1 "c1" "ABCD" "client" "Bob" 1).2) ∧
    (Eff.presence "ABCD" (some "Ann") [] ∈
      (step stC7 (Ev.disconnect "c1" 3)).2) ∧
    (Eff.presence "ABCD" (some "Ann") [] ∈
      (disconnectClientHandler stC7 "h1" "c1").2) ∧
    countPresence (step stC7 (Ev.disconnect "h1" 2)).2 = 0 ∧
    countPresence (graceTimerFire stC4a "ABCD").2 = 0 :=
  ⟨claim7_presence_amended.1 initState "h1" "ABCD" "Ann" 0
     (by decide) (by decide),
   claim7_presence_amended.2.1 stC1 "c1" "ABCD" "Bob" 1 sessC1
     (by decide) (by decide) (by decide) (by decide) (by decide),
   claim7_presence_amended.2.2.1 stC7 "c1" "ABCD" 3
     ⟨some ⟨"h1", "Ann"⟩, [⟨"c1", "Bob"⟩], none, 0, 1, none⟩
     (by decide) (by decide) (by decide),
   claim7_presence_amended.2.2.2.1 stC7 "h1" "c1" "ABCD"
     ⟨some ⟨"h1", "Ann"⟩, [⟨"c1", "Bob"⟩], none, 0, 1, none⟩ 0
     (by decide) (by decide) (by decide),
   claim7_presence_amended.2.2.2.2.1 stC7 "h1" "ABCD" 2
     ⟨some ⟨"h1", "Ann"⟩, [⟨"c1", "Bob"⟩], none, 0, 1, none⟩ ⟨"h1", "Ann"⟩
     (by decide) (by decide) (by decide) (by decide) (by decide),
   claim7_presence_amended.2.2.2.2.2 stC4a "ABCD"
     ⟨none, [], none, 0, 0, some 5⟩ (by decide) (by decide)⟩

end Audionize
